import Mathlib

/-!
# Verification of yourSQLfriend's SQL validation and execution layer

Shallow embedding of the security-relevant parts of the repository:

* `strip_strings_and_comments` and `validate_sql`
  (src/src/yoursqlfriend/validation.py),
* `get_readonly_connection` / `execute_and_parse_query`
  (src/src/yoursqlfriend/database.py),
* the `/execute_sql` route with its single LLM correction retry
  (src/app.py and src/src/yoursqlfriend/app.py).

Strings are modelled as `List Char` (ASCII behaviour of the Python string
operations involved); machine-level concerns do not arise.
-/

namespace YourSqlFriend

/-- The single-quote character, written via its code point. -/
def sq : Char := Char.ofNat 39

/-- The double-quote character. -/
def dq : Char := Char.ofNat 34

/-!
## `strip_strings_and_comments` (validation.py lines 13-77)

The Python function is a single index-based scan with two booleans
(`in_single_quote`, `in_double_quote`) and in-line skipping loops for `--`
line comments and `/* */` block comments.  We embed it as a DFA that
consumes exactly one character per step; the extra modes (`blockOpen`,
`blockClose`, `singleSkip`, `doubleSkip`) stand for the places where the
Python code advances the index by 2 at once.  The state pair
(in_single_quote, in_double_quote) can never be (True, True), so the mode
type enumerates exactly the reachable configurations of the scan.
-/

inductive Mode : Type
  | code        -- outside strings and comments
  | lineC       -- inside a `--` comment (terminated by a newline, which is emitted)
  | blockOpen   -- just saw `/` of `/*`; next char is the `*`, to be skipped
  | blockC      -- inside a `/* */` comment
  | blockClose  -- just saw `*` of a closing `*/`; next char is the `/`, to be skipped
  | singleQ     -- inside a single-quoted string
  | singleSkip  -- just saw the first quote of an escaped `''`; skip the second
  | doubleQ     -- inside a double-quoted string
  | doubleSkip  -- just saw the first quote of an escaped `""`; skip the second
  deriving DecidableEq

/-- The scanning loop of `strip_strings_and_comments`.  Each equation mirrors
one iteration of the Python `while` loop: line comments drop characters up to
(but not including) the newline; an unterminated block comment swallows the
rest of the input (the Python code `break`s out of the loop); quote
characters toggle the string modes and are never emitted; characters inside
strings are dropped; everything else in code mode is emitted verbatim. -/
def sscAux : Mode → List Char → List Char
  | _, [] => []
  | .code, c :: cs =>
      if c = '-' ∧ cs.head? = some '-' then sscAux .lineC cs
      else if c = '/' ∧ cs.head? = some '*' then sscAux .blockOpen cs
      else if c = sq then sscAux .singleQ cs
      else if c = dq then sscAux .doubleQ cs
      else c :: sscAux .code cs
  | .lineC, c :: cs =>
      if c = '\n' then c :: sscAux .code cs else sscAux .lineC cs
  | .blockOpen, _ :: cs => sscAux .blockC cs
  | .blockC, c :: cs =>
      if c = '*' ∧ cs.head? = some '/' then sscAux .blockClose cs
      else sscAux .blockC cs
  | .blockClose, _ :: cs => sscAux .code cs
  | .singleQ, c :: cs =>
      if c = sq then
        if cs.head? = some sq then sscAux .singleSkip cs else sscAux .code cs
      else sscAux .singleQ cs
  | .singleSkip, _ :: cs => sscAux .singleQ cs
  | .doubleQ, c :: cs =>
      if c = dq then
        if cs.head? = some dq then sscAux .doubleSkip cs else sscAux .code cs
      else sscAux .doubleQ cs
  | .doubleSkip, _ :: cs => sscAux .doubleQ cs

/-- `strip_strings_and_comments` on character lists: run the scan from the
initial state (outside any string or comment). -/
def sscChars (s : List Char) : List Char := sscAux .code s

/-- `strip_strings_and_comments` (validation.py lines 13-77). -/
def strip_strings_and_comments (s : String) : String := ⟨sscChars s.data⟩

example : strip_strings_and_comments "SELECT * FROM t" = "SELECT * FROM t" := by decide
example : strip_strings_and_comments "SELECT * FROM t WHERE x = \x27a;b\x27" = "SELECT * FROM t WHERE x = " := by decide
example : strip_strings_and_comments "SELECT 1 -- DROP TABLE x" = "SELECT 1 " := by decide
example : strip_strings_and_comments "a -- b\nc" = "a \nc" := by decide
example : strip_strings_and_comments "SELECT /* DROP */ 1" = "SELECT  1" := by decide
example : strip_strings_and_comments "SELECT 1 /* DROP" = "SELECT 1 " := by decide
example : strip_strings_and_comments "x = \x27it\x27\x27s\x27 y" = "x =  y" := by decide
example : strip_strings_and_comments "say \"he\"\"llo\" z" = "say  z" := by decide
example : strip_strings_and_comments "" = "" := by decide
example : strip_strings_and_comments "-/*x*/-" = "--" := by decide
example : strip_strings_and_comments "--" = "" := by decide
example : strip_strings_and_comments "/*/" = "" := by decide
example : strip_strings_and_comments "/**/a" = "a" := by decide

/-!
## String helpers mirroring the Python primitives used by `validate_sql`
-/

/-- Characters stripped by Python's `str.strip()` / `str.rstrip()` with no
argument (ASCII whitespace). -/
def pyWS (c : Char) : Bool :=
  c = ' ' ∨ c = '\t' ∨ c = '\n' ∨ c = '\r' ∨ c = Char.ofNat 11 ∨ c = Char.ofNat 12

/-- Python `str.rstrip()` restricted to characters satisfying `p`. -/
def rdropWhileP (p : Char → Bool) (l : List Char) : List Char :=
  (l.reverse.dropWhile p).reverse

/-- Python `str.strip()` (ASCII whitespace on both ends). -/
def pyStrip (l : List Char) : List Char :=
  rdropWhileP pyWS (l.dropWhile pyWS)

/-- Python `str.upper()` (ASCII). -/
def upperL (l : List Char) : List Char := l.map Char.toUpper

/-- Python `str.split('\n')`: `"" ↦ [""]`, separators delimit (possibly
empty) fields. -/
def splitNl : List Char → List (List Char)
  | [] => [[]]
  | c :: cs =>
      if c = '\n' then [] :: splitNl cs
      else
        match splitNl cs with
        | [] => [[c]]
        | h :: t => (c :: h) :: t

/-- `pat` is a prefix of `t` (Python `str.startswith` on a slice). -/
def prefixOfC : List Char → List Char → Bool
  | [], _ => true
  | _ :: _, [] => false
  | p :: ps, c :: cs => if p = c then prefixOfC ps cs else false

/-- `pat` occurs as a contiguous substring of the text (Python `in`). -/
def containsSub (pat : List Char) : List Char → Bool
  | [] => prefixOfC pat []
  | c :: cs => prefixOfC pat (c :: cs) || containsSub pat cs

/-- Word character in the sense of the regex `\b` boundary used by
`re.search(r'\b' + keyword + r'\b', ...)`: ASCII letters, digits, `_`. -/
def isWordChar (c : Char) : Bool := c.isAlphanum || c = '_'

/-- A position boundary: the adjacent character (`none` at the edges of the
text) is not a word character. -/
def boundaryOk : Option Char → Bool
  | none => true
  | some c => !isWordChar c

/-- The keyword (all of whose characters are word characters) matches at the
head of `t` with a word boundary at its right end. -/
def wbHere (kw t : List Char) : Bool :=
  prefixOfC kw t && boundaryOk (t.drop kw.length).head?

/-- Scan of `re.search(r'\b' + kw + r'\b', text)` for a keyword made of word
characters: some suffix of the text matches `kw` with non-word characters (or
the text edges) on both sides.  `prev` is the character just before the
current suffix. -/
def wbSearchAux (kw : List Char) : Option Char → List Char → Bool
  | prev, [] => boundaryOk prev && wbHere kw []
  | prev, c :: cs =>
      (boundaryOk prev && wbHere kw (c :: cs)) || wbSearchAux kw (some c) cs

/-- `re.search(r'\b' + kw + r'\b', text) is not None` for an all-word-char
keyword. -/
def wbContains (text kw : List Char) : Bool := wbSearchAux kw none text

/-!
## `validate_sql` (validation.py lines 80-136)
-/

/-- `FORBIDDEN_QUERY_KEYWORDS` (validation.py lines 5-10), in source order. -/
def FORBIDDEN_QUERY_KEYWORDS : List String :=
  ["DROP", "DELETE", "INSERT", "UPDATE", "ALTER",
   "TRUNCATE", "EXEC", "GRANT", "REVOKE", "CREATE",
   "ATTACH", "DETACH", "REPLACE", "VACUUM",
   "SAVEPOINT", "RELEASE", "REINDEX"]

/-- `allowed_starts` of rule 1. -/
def allowedStarts : List String := ["SELECT", "WITH", "EXPLAIN", "PRAGMA"]

/-- `write_pragmas` of rule 5 — note each entry carries the `PRAGMA ` prefix,
exactly as in the source. -/
def writePragmas : List String :=
  ["PRAGMA JOURNAL_MODE", "PRAGMA LOCKING_MODE", "PRAGMA WRITABLE_SCHEMA",
   "PRAGMA AUTO_VACUUM", "PRAGMA INCREMENTAL_VACUUM"]

/-- `first_code_line`: the first line of `sql.strip()` whose own strip is
nonempty and does not start with `--`; `''` when there is none. -/
def firstCodeLine (sqlStripped : List Char) : List Char :=
  match (splitNl sqlStripped).find?
      (fun ln => !(pyStrip ln).isEmpty && !prefixOfC ['-', '-'] (pyStrip ln)) with
  | some ln => pyStrip ln
  | none => []

/-- Rule 1 fails: `first_code_upper` starts with none of `allowed_starts`. -/
def rule1Fail (sql : List Char) : Bool :=
  !(allowedStarts.any fun st =>
      prefixOfC st.data (upperL (firstCodeLine (pyStrip sql))))

/-- Rule 2's trimmed text: `strip_strings_and_comments(sql).rstrip().rstrip(';').rstrip()`
(note `rstrip(';')` removes **all** trailing semicolons). -/
def rule2Trimmed (sql : List Char) : List Char :=
  rdropWhileP pyWS (rdropWhileP (· = ';') (rdropWhileP pyWS (sscChars sql)))

/-- Rule 2 fails: a `;` remains in the trimmed, stripped text. -/
def rule2Fail (sql : List Char) : Bool := (rule2Trimmed sql).contains ';'

/-- Rule 3: the first forbidden keyword (in source order) matched at word
boundaries in the uppercased stripped text, if any. -/
def rule3Hit (sql : List Char) : Option String :=
  FORBIDDEN_QUERY_KEYWORDS.find? fun kw =>
    wbContains (upperL (sscChars sql)) kw.data

/-- Rule 4 fails: `sql_upper` (the stripped input uppercased — not the
comment-skipped first code line) starts with `WITH` but contains no
`SELECT`. -/
def rule4Fail (sql : List Char) : Bool :=
  prefixOfC "WITH".data (upperL (pyStrip sql)) &&
    !containsSub "SELECT".data (upperL (pyStrip sql))

/-- Rule 5: `sql_upper` starts with `PRAGMA` and contains one of the
`write_pragmas` substrings; returns the first such entry. -/
def rule5Hit (sql : List Char) : Option String :=
  if prefixOfC "PRAGMA".data (upperL (pyStrip sql)) then
    writePragmas.find? fun w => containsSub w.data (upperL (pyStrip sql))
  else none

/-- Rule 1's rejection message. -/
def entryMsg : String := "Query must start with: SELECT, WITH, EXPLAIN, PRAGMA"

/-- Rule 2's rejection message. -/
def multiMsg : String := "Security Warning: Multiple SQL statements are not allowed."

/-- Rule 3's rejection message for a given keyword. -/
def kwMsg (kw : String) : String :=
  "Security Warning: Query contains forbidden keyword \x27" ++ kw ++ "\x27."

/-- Rule 4's rejection message. -/
def cteMsg : String := "CTE (WITH clause) must contain a SELECT statement."

/-- Rule 5's rejection message for a given `write_pragmas` entry. -/
def pragmaMsg (w : String) : String :=
  "Security Warning: " ++ w ++ " is not allowed (can modify database)."

/-- `validate_sql` (validation.py lines 80-136): the five rules applied in
source order, returning `(is_valid, error_message)`. -/
def validate_sql (sql : String) : Bool × Option String :=
  if rule1Fail sql.data then (false, some entryMsg)
  else if rule2Fail sql.data then (false, some multiMsg)
  else
    match rule3Hit sql.data with
    | some kw => (false, some (kwMsg kw))
    | none =>
      if rule4Fail sql.data then (false, some cteMsg)
      else
        match rule5Hit sql.data with
        | some w => (false, some (pragmaMsg w))
        | none => (true, none)

example : validate_sql "SELECT * FROM users" = (true, none) := by decide
example : validate_sql "SELECT 1;" = (true, none) := by decide
example : validate_sql "SELECT 1;  " = (true, none) := by decide
example : validate_sql "SELECT 1;;" = (true, none) := by decide
example : validate_sql "SELECT 1; ;" = (false, some multiMsg) := by decide
example : validate_sql "SELECT 1; SELECT 2" = (false, some multiMsg) := by decide
example : validate_sql "SELECT * FROM t WHERE x = \x27a;b\x27" = (true, none) := by decide
example : validate_sql "SELECT * FROM logs WHERE msg = \x27DELETE\x27" = (true, none) := by decide
example : validate_sql "DELETE FROM users" = (false, some entryMsg) := by decide
example : validate_sql "SELECT DELETE" = (false, some (kwMsg "DELETE")) := by decide
example : validate_sql "WITH cte AS (VALUES (1)) SELECT * FROM cte" = (true, none) := by decide
example : validate_sql "WITH cte AS (VALUES (1))" = (false, some cteMsg) := by decide
example : validate_sql "-- note\nWITH cte AS (VALUES (1))" = (true, none) := by decide
example : validate_sql "PRAGMA table_info(\"users\")" = (true, none) := by decide
example : validate_sql "PRAGMA JOURNAL_MODE = WAL" = (false, some (pragmaMsg "PRAGMA JOURNAL_MODE")) := by decide
example : validate_sql "PRAGMA main.journal_mode = WAL" = (true, none) := by decide
example : validate_sql "" = (false, some entryMsg) := by decide
example : validate_sql "-- just a comment\n-- another" = (false, some entryMsg) := by decide
example : validate_sql "SELECT 1; DROP TABLE x" = (false, some multiMsg) := by decide
example : validate_sql "VACUUM" = (false, some entryMsg) := by decide
example : validate_sql "EXPLAIN QUERY PLAN SELECT * FROM users" = (true, none) := by decide
example : validate_sql "-- Comment 1\n-- Comment 2\nSELECT * FROM users" = (true, none) := by decide
example : validate_sql "select * from users" = (true, none) := by decide
example : validate_sql "PRAGMA AUTO_VACUUM = FULL" = (false, some (pragmaMsg "PRAGMA AUTO_VACUUM")) := by decide

/-!
## Database layer (database.py) and the `/execute_sql` route (app.py)

Connections are modelled by the two read-only properties the code sets when
it opens them; query execution against the SQLite engine is modelled by a
function `db : String → Except String (List Nat)` mapping the executed
statement to either an error message (`sqlite3.Error`) or a row stream (rows
abstracted to `Nat`).  The route model returns, next to the JSON response,
the trace of `(connection configuration, executed statement)` pairs, in
order, one entry per `cursor.execute` call that the code performs.
-/

/-- A SQLite connection as configured at open time: whether the URI carried
`mode=ro`, and whether `PRAGMA query_only = ON` was executed on it before any
statement. -/
structure ConnCfg where
  mode_ro : Bool
  query_only : Bool
  deriving DecidableEq

/-- `get_readonly_connection` (database.py lines 21-28):
`sqlite3.connect(f"file:{path}?mode=ro", uri=True)` followed by
`conn.execute("PRAGMA query_only = ON")`.  The legacy route (app.py lines
1096-1098 and 1166-1168) inlines exactly the same two calls. -/
def get_readonly_connection : ConnCfg := ⟨true, true⟩

/-- `MAX_RESULT_ROWS` (database.py line 18). -/
def MAX_RESULT_ROWS : Nat := 2000

/-- `cursor.fetchmany(n)` on a cursor whose remaining row stream is `rows`. -/
def fetchmany (n : Nat) (rows : List Nat) : List Nat := rows.take n

/-- `execute_and_parse_query` (database.py lines 31-43) after the execute:
`results = cursor.fetchmany(MAX_RESULT_ROWS + 1)` then
`return [dict(row) for row in results[:MAX_RESULT_ROWS]]`. -/
def execute_and_parse_query (rows : List Nat) : List Nat :=
  (fetchmany (MAX_RESULT_ROWS + 1) rows).take MAX_RESULT_ROWS

/-- Number of rows `execute_and_parse_query` pulls from the cursor. -/
def eapqFetchCount (rows : List Nat) : Nat :=
  (fetchmany (MAX_RESULT_ROWS + 1) rows).length

/-- The legacy route's fetch (app.py line 1107): `results = cursor.fetchall()`
materialises the whole stream. -/
def legacyFetch (rows : List Nat) : List Nat := rows

/-- Number of rows the legacy route pulls from the cursor. -/
def legacyFetchCount (rows : List Nat) : Nat := (legacyFetch rows).length

/-- The legacy route's limiting (app.py line 1110): `results[:2000]`. -/
def legacyResults (rows : List Nat) : List Nat := (legacyFetch rows).take 2000

/-- Keys of the JSON object returned on first-attempt success
(`jsonify({'response': ..., 'query_results': ...})`, app.py lines 1128-1131
and yoursqlfriend/app.py lines 467-470). -/
def successResponseKeys : List String := ["response", "query_results"]

/-- Keys of the JSON object returned on retry success (app.py lines
1191-1197). -/
def retryResponseKeys : List String :=
  ["response", "query_results", "retried", "original_sql", "corrected_sql"]

/-- `sql_query.rstrip(';').strip()` (app.py line 1093, database.py line 38):
drop all trailing semicolons, then ASCII whitespace on both ends. -/
def cleaned_query (sql : String) : String :=
  ⟨pyStrip (rdropWhileP (· = ';') sql.data)⟩

/-- Scan for the earliest `\n + three backticks` closer; returns the
(shortest) captured body before it, `none` when the comment block never
closes. -/
def takeUntilCloser : List Char → Option (List Char)
  | [] => none
  | c :: cs =>
      if prefixOfC "\n```".data (c :: cs) then some []
      else (takeUntilCloser cs).map (c :: ·)

/-- `re.search(r'```sql\n([\s\S]*?)\n```', reply)` (app.py lines 1152-1154):
leftmost match of the fixed opener, then the lazy (shortest) body up to the
next closer; if no closer follows a given opener the engine restarts at the
next position. -/
def extractAux : List Char → Option (List Char)
  | [] => none
  | c :: cs =>
      if prefixOfC "```sql\n".data (c :: cs) then
        match takeUntilCloser ((c :: cs).drop 7) with
        | some body => some body
        | none => extractAux cs
      else extractAux cs

/-- The SQL block extracted from the LLM correction reply, already passed
through `.strip()` (`corrected_sql = sql_match.group(1).strip()`). -/
def extract_sql_block (reply : String) : Option String :=
  (extractAux reply.data).map fun body => ⟨pyStrip body⟩

/-- The JSON response of the `/execute_sql` route, reduced to the fields the
claims speak about. -/
structure SqlResponse where
  ok : Bool
  error : Option String
  results : List Nat
  retried : Bool
  deriving DecidableEq

/-- The `/execute_sql` route (app.py lines 1060-1197) from the point where
the SQL and database are present: validation, first read-only execution, and
on `sqlite3.Error` a single LLM correction retry whose own failure (no
fenced block, failed re-validation, or failed re-execution) is caught and
surfaced as `f"SQL Error: {e}"` with `e` the **original** error.  Returns
the response and the trace of `(connection configuration, statement)` pairs
actually executed. -/
def execute_sql (db : String → Except String (List Nat)) (llmReply : String)
    (sql : String) : SqlResponse × List (ConnCfg × String) :=
  match validate_sql sql with
  | (false, msg) => (⟨false, msg, [], false⟩, [])
  | (true, _) =>
    let cleaned := cleaned_query sql
    match db cleaned with
    | .ok rows => (⟨true, none, legacyResults rows, false⟩,
                   [(get_readonly_connection, cleaned)])
    | .error e =>
      let failResp : SqlResponse := ⟨false, some ("SQL Error: " ++ e), [], false⟩
      match extract_sql_block llmReply with
      | none => (failResp, [(get_readonly_connection, cleaned)])
      | some corrected =>
        match validate_sql corrected with
        | (false, _) => (failResp, [(get_readonly_connection, cleaned)])
        | (true, _) =>
          let cleaned2 := cleaned_query corrected
          match db cleaned2 with
          | .ok rows => (⟨true, none, legacyResults rows, true⟩,
                         [(get_readonly_connection, cleaned),
                          (get_readonly_connection, cleaned2)])
          | .error _ => (failResp,
                         [(get_readonly_connection, cleaned),
                          (get_readonly_connection, cleaned2)])

/-- Whether the correction retry fails for the given LLM reply and engine:
no fenced block, extracted statement fails validation, or re-execution
errors. -/
def retryFails (db : String → Except String (List Nat)) (llmReply : String) : Bool :=
  match extract_sql_block llmReply with
  | none => true
  | some corrected =>
      match validate_sql corrected with
      | (false, _) => true
      | (true, _) =>
          match db (cleaned_query corrected) with
          | .ok _ => false
          | .error _ => true

example : extract_sql_block "text ```sql\nSELECT 2\n``` more" = some "SELECT 2" := by decide
example : extract_sql_block "no block here" = none := by decide
example : extract_sql_block "```sql\nunclosed" = none := by decide
example : cleaned_query "SELECT 1;;" = "SELECT 1" := by decide
example : cleaned_query "SELECT 1;  " = "SELECT 1;" := by decide
example : cleaned_query "  SELECT 1 ;;" = "SELECT 1" := by decide
example :
    execute_sql (fun _ => .error "no such table: t") "nothing" "SELECT 1" =
      (⟨false, some "SQL Error: no such table: t", [], false⟩,
       [(get_readonly_connection, "SELECT 1")]) := by decide
example :
    execute_sql (fun q => if q = "SELECT 2" then .ok [5] else .error "boom")
      "```sql\nSELECT 2\n```" "SELECT 1" =
      (⟨true, none, [5], true⟩,
       [(get_readonly_connection, "SELECT 1"), (get_readonly_connection, "SELECT 2")]) := by
  decide

/-!
## Character classification of the stripping scan

`annot` runs the very same scan as `sscAux` but, instead of dropping
characters, tags every input character with its role: `kept` (outside
strings and comments, emitted verbatim), `delim` (quote characters and
comment delimiters, consumed), `strInner` (interior of a single- or
double-quoted span, including the characters of an escaped `''`/`""` pair),
or `commentInner` (content of a `--` or `/* */` comment).  It is the formal
notion of "span interior" against which the stripper's output is compared.
-/

inductive CKind : Type
  | kept
  | delim
  | strInner
  | commentInner
  deriving DecidableEq

/-- The classifying twin of `sscAux`: same state machine, branch for branch,
but total on characters — each input character is emitted exactly once with
its classification. -/
def annot : Mode → List Char → List (CKind × Char)
  | _, [] => []
  | .code, c :: cs =>
      if c = '-' ∧ cs.head? = some '-' then (.delim, c) :: annot .lineC cs
      else if c = '/' ∧ cs.head? = some '*' then (.delim, c) :: annot .blockOpen cs
      else if c = sq then (.delim, c) :: annot .singleQ cs
      else if c = dq then (.delim, c) :: annot .doubleQ cs
      else (.kept, c) :: annot .code cs
  | .lineC, c :: cs =>
      if c = '\n' then (.kept, c) :: annot .code cs
      else (.commentInner, c) :: annot .lineC cs
  | .blockOpen, c :: cs => (.delim, c) :: annot .blockC cs
  | .blockC, c :: cs =>
      if c = '*' ∧ cs.head? = some '/' then (.delim, c) :: annot .blockClose cs
      else (.commentInner, c) :: annot .blockC cs
  | .blockClose, c :: cs => (.delim, c) :: annot .code cs
  | .singleQ, c :: cs =>
      if c = sq then
        if cs.head? = some sq then (.strInner, c) :: annot .singleSkip cs
        else (.delim, c) :: annot .code cs
      else (.strInner, c) :: annot .singleQ cs
  | .singleSkip, c :: cs => (.strInner, c) :: annot .singleQ cs
  | .doubleQ, c :: cs =>
      if c = dq then
        if cs.head? = some dq then (.strInner, c) :: annot .doubleSkip cs
        else (.delim, c) :: annot .code cs
      else (.strInner, c) :: annot .doubleQ cs
  | .doubleSkip, c :: cs => (.strInner, c) :: annot .doubleQ cs

/-- Projection keeping exactly the `kept` characters. -/
def keptF : CKind × Char → Option Char :=
  fun p => if p.1 = .kept then some p.2 else none

/-- The classification is total and order-preserving: forgetting the tags
gives back the input. -/
theorem annot_map_snd : ∀ (s : List Char) (m : Mode), (annot m s).map Prod.snd = s := by
  intro s
  induction s with
  | nil => intro m; cases m <;> simp [annot]
  | cons c cs ih =>
    intro m
    cases m <;> simp only [annot] <;> (try split_ifs) <;> simp_all

/-- The stripper emits exactly the characters classified `kept`, in order. -/
theorem sscAux_eq_filterMap :
    ∀ (s : List Char) (m : Mode), sscAux m s = (annot m s).filterMap keptF := by
  intro s
  induction s with
  | nil => intro m; cases m <;> simp [annot, sscAux]
  | cons c cs ih =>
    intro m
    cases m <;> simp only [annot, sscAux] <;> (try split_ifs) <;>
      simp_all [keptF, List.filterMap_cons]

/-- The stripper's output is a sublist of its input: kept characters appear
verbatim and in their original relative order, and nothing is invented. -/
theorem sscAux_sublist : ∀ (s : List Char) (m : Mode), List.Sublist (sscAux m s) s := by
  intro s
  induction s with
  | nil => intro m; cases m <;> simp [sscAux]
  | cons c cs ih =>
    intro m
    cases m <;> simp only [sscAux] <;> (try split_ifs) <;>
      first
        | exact (ih _).cons _
        | exact (ih _).cons₂ _

/-- Quote characters are always consumed as delimiters, escape pairs or
string interiors: the output never contains a single or double quote. -/
theorem sscAux_quote_free :
    ∀ (s : List Char) (m : Mode), sq ∉ sscAux m s ∧ dq ∉ sscAux m s := by
  intro s
  induction s with
  | nil => intro m; cases m <;> simp [sscAux]
  | cons c cs ih =>
    intro m
    have emit : ∀ x : Char, x ≠ sq → x ≠ dq →
        sq ∉ x :: sscAux Mode.code cs ∧ dq ∉ x :: sscAux Mode.code cs := by
      intro x hxs hxd
      obtain ⟨ihs, ihd⟩ := ih Mode.code
      constructor <;> intro hmem <;> rcases List.mem_cons.mp hmem with h | h
      · exact hxs h.symm
      · exact ihs h
      · exact hxd h.symm
      · exact ihd h
    cases m <;> simp only [sscAux] <;> (try split_ifs) <;>
      first
        | exact ih _
        | (rename_i hs hd; exact emit c (fun h => hs h) (fun h => hd h))
        | (rename_i hnl; exact hnl ▸ emit '\n' (by decide) (by decide))

/-- No two adjacent characters form a `--` or `/*` delimiter pair. -/
def noDelimPair : List Char → Bool
  | [] => true
  | c :: cs =>
      !((c = '-' && cs.head? = some '-') || (c = '/' && cs.head? = some '*')) &&
        noDelimPair cs

/-- On text free of quotes and of adjacent comment-delimiter pairs, the
stripping scan is the identity. -/
theorem sscAux_clean_id :
    ∀ s : List Char, sq ∉ s → dq ∉ s → noDelimPair s = true →
      sscAux .code s = s := by
  intro s
  induction s with
  | nil => intro _ _ _; simp [sscAux]
  | cons c cs ih =>
    intro hsq hdq hnd
    simp only [noDelimPair, Bool.and_eq_true, Bool.not_eq_true',
      Bool.or_eq_false_iff, Bool.and_eq_false_iff] at hnd
    simp only [List.mem_cons, not_or] at hsq hdq
    simp only [sscAux]
    split_ifs with h1 h2 h3 h4
    · rcases hnd.1.1 with h | h <;> simp_all
    · rcases hnd.1.2 with h | h <;> simp_all
    · exact absurd h3.symm hsq.1
    · exact absurd h4.symm hdq.1
    · exact congrArg (c :: ·) (ih hsq.2 hdq.2 hnd.2)

/-- `List.find?` succeeds whenever some member satisfies the predicate. -/
theorem find?_some_of_mem {α : Type} (p : α → Bool) {l : List α} {a : α}
    (ha : a ∈ l) (hp : p a = true) : ∃ b, l.find? p = some b := by
  induction l with
  | nil => cases ha
  | cons x xs ih =>
    by_cases hx : p x = true
    · exact ⟨x, by simp [List.find?, hx]⟩
    · rcases List.mem_cons.mp ha with rfl | hmem
      · exact absurd hp hx
      · obtain ⟨b, hb⟩ := ih hmem
        exact ⟨b, by simp [List.find?, hx, hb]⟩

/-!
## The claims
-/

/-- C6: `strip_strings_and_comments` removes exactly the content of string
literals and comments: every input character is classified (in order) as
kept, delimiter, string interior or comment content, the output consists of
precisely the kept characters in their original relative order (so no
character at a string-interior or comment position ever occurs in the
output), every character outside string literals and comments appears
verbatim and in order (the output is a sublist of the input), and the empty
input yields the empty output. -/
theorem C6_strip_characterization :
    (∀ s : String, (annot .code s.data).map Prod.snd = s.data) ∧
    (∀ s : String,
      (strip_strings_and_comments s).data = (annot .code s.data).filterMap keptF) ∧
    (∀ s : String, List.Sublist (strip_strings_and_comments s).data s.data) ∧
    strip_strings_and_comments "" = "" :=
  ⟨fun s => annot_map_snd s.data Mode.code,
   fun s => sscAux_eq_filterMap s.data Mode.code,
   fun s => sscAux_sublist s.data Mode.code,
   by decide⟩

/-- C10 (implicit): the output of `strip_strings_and_comments` never contains
a single-quote or double-quote character, for any input: quotes are consumed
as delimiters or escape pairs and never emitted. -/
theorem C10_no_quotes_in_output :
    ∀ s : String,
      sq ∉ (strip_strings_and_comments s).data ∧ dq ∉ (strip_strings_and_comments s).data :=
  fun s => sscAux_quote_free s.data Mode.code

/-- C7 counterexample: `strip_strings_and_comments` is **not** idempotent.
Stripping a dash, a block comment, and another dash (the seven-character
input of the statement below) yields `--`: the two dashes become adjacent
once the block comment between them is removed, and stripping `--` yields
the empty string. -/
theorem C7_counterexample :
    strip_strings_and_comments (strip_strings_and_comments "-/*x*/-") ≠
        strip_strings_and_comments "-/*x*/-" ∧
      strip_strings_and_comments "-/*x*/-" = "--" ∧
      strip_strings_and_comments "--" = "" := by
  refine ⟨?_, by decide, by decide⟩
  decide

/-- C7 as amended: re-running `strip_strings_and_comments` on its own output
is a no-op **provided** the output contains no newly adjacent `--` or `/*`
delimiter pair.  (Quote characters never survive stripping, but removing a
span can juxtapose `-`/`-` or `/`/`*` from opposite sides of it, and a
second run then treats them as a comment opener, so unrestricted idempotence
fails.) -/
theorem C7_idempotent_of_noDelimPair :
    ∀ s : String, noDelimPair (strip_strings_and_comments s).data = true →
      strip_strings_and_comments (strip_strings_and_comments s) =
        strip_strings_and_comments s := by
  intro s h
  have hq := sscAux_quote_free s.data Mode.code
  exact congrArg String.mk (sscAux_clean_id (sscChars s.data) hq.1 hq.2 h)

/-- Witness for C7: on `SELECT 1 -- x` the stripped output `SELECT 1 ` has no
delimiter pair, and stripping it again is a no-op. -/
theorem C7_witness :
    noDelimPair (strip_strings_and_comments "SELECT 1 -- x").data = true ∧
      strip_strings_and_comments (strip_strings_and_comments "SELECT 1 -- x") =
        strip_strings_and_comments "SELECT 1 -- x" :=
  ⟨by decide, C7_idempotent_of_noDelimPair "SELECT 1 -- x" (by decide)⟩

/-- C3 counterexample: the claim tolerates only **one** trailing terminator,
but `validate_sql "SELECT 1;;"` is accepted: rule 2 trims with
`rstrip(';')`, which removes **all** trailing semicolons, not at most one. -/
theorem C3_counterexample : validate_sql "SELECT 1;;" = (true, none) := by decide

/-- C3 as amended: rule 2 strips strings/comments from the original input,
trims trailing whitespace, then **every** trailing semicolon, then trailing
whitespace again, and rejects as multiple statements if a `;` remains; so
`SELECT 1;`, `SELECT 1;  ` (trailing whitespace) and `SELECT 1;;` (a run of
trailing terminators) are accepted, `SELECT 1; SELECT 2` and
`SELECT 1; ;` (semicolons separated by inner whitespace) are rejected with
the multi-statement reason, and a semicolon inside a string literal
(`'a;b'`) does not cause rejection. -/
theorem C3_rule2_trimming :
    validate_sql "SELECT 1;" = (true, none) ∧
      validate_sql "SELECT 1;  " = (true, none) ∧
      validate_sql "SELECT 1;;" = (true, none) ∧
      validate_sql "SELECT 1; SELECT 2" = (false, some multiMsg) ∧
      validate_sql "SELECT 1; ;" = (false, some multiMsg) ∧
      validate_sql "SELECT * FROM t WHERE x = \x27a;b\x27" = (true, none) := by
  refine ⟨by decide, by decide, by decide, by decide, by decide, by decide⟩

/-- C4 counterexample: the claim says any PRAGMA statement naming
`journal_mode` — including qualified forms — is rejected, but
`validate_sql "PRAGMA main.journal_mode = WAL"` is accepted: rule 5 matches
the substrings `PRAGMA JOURNAL_MODE`, ..., each carrying the `PRAGMA `
prefix, and `PRAGMA MAIN.JOURNAL_MODE` does not contain that substring. -/
theorem C4_counterexample :
    validate_sql "PRAGMA main.journal_mode = WAL" = (true, none) := by decide

/-- C4 as amended: for a statement starting with `PRAGMA`, rule 5 rejects
exactly when the uppercased text contains one of the five substrings
`PRAGMA JOURNAL_MODE`, `PRAGMA LOCKING_MODE`, `PRAGMA WRITABLE_SCHEMA`,
`PRAGMA AUTO_VACUUM`, `PRAGMA INCREMENTAL_VACUUM` — the pragma name
immediately following the `PRAGMA ` keyword.  `PRAGMA table_info("users")`
is accepted, the five plain write-capable pragmas are rejected with the rule
5 reason, and a qualified `PRAGMA main.journal_mode = WAL` slips through. -/
theorem C4_pragma_rule :
    validate_sql "PRAGMA table_info(\"users\")" = (true, none) ∧
      validate_sql "PRAGMA JOURNAL_MODE = WAL" =
        (false, some (pragmaMsg "PRAGMA JOURNAL_MODE")) ∧
      validate_sql "PRAGMA LOCKING_MODE = EXCLUSIVE" =
        (false, some (pragmaMsg "PRAGMA LOCKING_MODE")) ∧
      validate_sql "PRAGMA WRITABLE_SCHEMA = ON" =
        (false, some (pragmaMsg "PRAGMA WRITABLE_SCHEMA")) ∧
      validate_sql "PRAGMA AUTO_VACUUM = FULL" =
        (false, some (pragmaMsg "PRAGMA AUTO_VACUUM")) ∧
      validate_sql "PRAGMA INCREMENTAL_VACUUM" =
        (false, some (pragmaMsg "PRAGMA INCREMENTAL_VACUUM")) ∧
      validate_sql "PRAGMA main.journal_mode = WAL" = (true, none) := by
  refine ⟨by decide, by decide, by decide, by decide, by decide, by decide, by decide⟩

/-- C5 counterexample: the claim says the CTE-completeness rejection also
applies when leading `--` comment lines precede the `WITH`, but
`validate_sql "-- note\nWITH cte AS (VALUES (1))"` is accepted: rule 4
tests `sql_upper.startswith("WITH")` on the whole stripped text, which here
starts with `--`, so the CTE check is skipped. -/
theorem C5_counterexample :
    validate_sql "-- note\nWITH cte AS (VALUES (1))" = (true, none) := by decide

/-- C5 as amended: rule 4 applies only when the raw stripped text itself
starts with `WITH` (case-insensitive) — unlike rule 1 it does **not** skip
leading comment lines.  In that case, any statement whose uppercase text
lacks `SELECT` is rejected;
`WITH cte AS (VALUES (1)) SELECT * FROM cte` is accepted,
`WITH cte AS (VALUES (1))` is rejected with the CTE-completeness reason, and
the same statement behind a leading comment line is accepted. -/
theorem C5_cte_rule :
    (∀ s : String,
      prefixOfC "WITH".data (upperL (pyStrip s.data)) = true →
      containsSub "SELECT".data (upperL (pyStrip s.data)) = false →
      (validate_sql s).1 = false) ∧
    validate_sql "WITH cte AS (VALUES (1)) SELECT * FROM cte" = (true, none) ∧
    validate_sql "WITH cte AS (VALUES (1))" = (false, some cteMsg) ∧
    validate_sql "-- note\nWITH cte AS (VALUES (1))" = (true, none) := by
  refine ⟨?_, by decide, by decide, by decide⟩
  intro s hw hsel
  have h4 : rule4Fail s.data = true := by
    simp [rule4Fail, hw, hsel]
  simp only [validate_sql]
  split_ifs with h1 h2
  · rfl
  · rfl
  · match h3 : rule3Hit s.data with
    | some kw => simp [h3]
    | none => simp [h3, h4]

/-- Witness for C5: the general rule-4 component applied to
`WITH cte AS (VALUES (1))`. -/
theorem C5_witness :
    (prefixOfC "WITH".data (upperL (pyStrip ("WITH cte AS (VALUES (1))" : String).data)) = true ∧
      containsSub "SELECT".data (upperL (pyStrip ("WITH cte AS (VALUES (1))" : String).data)) = false) ∧
    (validate_sql "WITH cte AS (VALUES (1))").1 = false :=
  ⟨⟨by decide, by decide⟩,
   C5_cte_rule.1 "WITH cte AS (VALUES (1))" (by decide) (by decide)⟩

/-- C2 counterexample: `DELETE FROM users` is indeed rejected, but by rule 1
(entry-point check), whose reason
`Query must start with: SELECT, WITH, EXPLAIN, PRAGMA` does not mention
`DELETE` — contradicting the claim that the rejection reason names exactly
the offending keyword. -/
theorem C2_counterexample :
    validate_sql "DELETE FROM users" = (false, some entryMsg) ∧
      containsSub "DELETE".data entryMsg.data = false := by
  refine ⟨by decide, by decide⟩

/-- C2 as amended: keywords occurring only inside string literals or
comments do not trigger rejection (`SELECT * FROM logs WHERE msg = 'DELETE'`
is accepted); whenever a blocklisted keyword occurs outside any
literal/comment — matched case-insensitively at word boundaries on the
tokenizer-stripped text — `validate_sql` rejects, but the reason names the
keyword only when the statement also passes the entry-point and
multi-statement rules (`SELECT DELETE` → reason names `DELETE`);
`DELETE FROM users` fails the entry-point rule first and its reason does not
mention the keyword. -/
theorem C2_keyword_blocklist :
    validate_sql "SELECT * FROM logs WHERE msg = \x27DELETE\x27" = (true, none) ∧
    (∀ (s : String) (kw : String), kw ∈ FORBIDDEN_QUERY_KEYWORDS →
      wbContains (upperL (sscChars s.data)) kw.data = true →
      (validate_sql s).1 = false) ∧
    validate_sql "SELECT DELETE" = (false, some (kwMsg "DELETE")) ∧
    validate_sql "DELETE FROM users" = (false, some entryMsg) := by
  refine ⟨by decide, ?_, by decide, by decide⟩
  intro s kw hmem hwb
  obtain ⟨k, hk⟩ := find?_some_of_mem
    (fun kw => wbContains (upperL (sscChars s.data)) kw.data) hmem hwb
  have hk' : rule3Hit s.data = some k := hk
  simp only [validate_sql]
  split_ifs <;> simp [hk']

/-- Witness for C2: the general blocklist component applied to
`SELECT DELETE` and the keyword `DELETE`. -/
theorem C2_witness :
    ("DELETE" ∈ FORBIDDEN_QUERY_KEYWORDS ∧
      wbContains (upperL (sscChars ("SELECT DELETE" : String).data)) "DELETE".data = true) ∧
    (validate_sql "SELECT DELETE").1 = false :=
  ⟨⟨by decide, by decide⟩,
   (C2_keyword_blocklist.2.1 "SELECT DELETE" "DELETE" (by decide) (by decide))⟩

/-- C1: every statement the `/execute_sql` route runs — the first attempt and
the correction-retry attempt alike — is executed on a connection opened with
the SQLite URI `mode=ro` and configured with `PRAGMA query_only = ON` before
the statement executes: every entry of the execution trace carries the
read-only configuration of `get_readonly_connection`. -/
theorem C1_readonly_connections :
    ∀ (db : String → Except String (List Nat)) (llmReply sql : String)
      (ev : ConnCfg × String), ev ∈ (execute_sql db llmReply sql).2 →
      ev.1.mode_ro = true ∧ ev.1.query_only = true ∧ ev.1 = get_readonly_connection := by
  intro db llmReply sql ev hmem
  simp only [execute_sql] at hmem
  repeat' split at hmem
  all_goals simp_all [get_readonly_connection, List.mem_cons]
  all_goals rcases hmem with rfl | rfl <;> exact ⟨rfl, rfl, rfl⟩

/-- Witness for C1: a successful `SELECT 1` produces exactly one execution
event, and it is read-only. -/
theorem C1_witness :
    ((get_readonly_connection, "SELECT 1") ∈
        (execute_sql (fun _ => .ok [1]) "no reply" "SELECT 1").2) ∧
      ((get_readonly_connection, "SELECT 1") : ConnCfg × String).1.mode_ro = true ∧
      ((get_readonly_connection, "SELECT 1") : ConnCfg × String).1.query_only = true ∧
      ((get_readonly_connection, "SELECT 1") : ConnCfg × String).1 = get_readonly_connection :=
  ⟨by decide,
   C1_readonly_connections (fun _ => .ok [1]) "no reply" "SELECT 1"
     (get_readonly_connection, "SELECT 1") (by decide)⟩

/-- C8 counterexample: the claim says every executed query fetches at most
`MAX_RESULT_ROWS + 1` (2001) rows from the cursor and records a truncation
flag, but the legacy `/execute_sql` route calls `cursor.fetchall()` — on a
2002-row result it fetches all 2002 rows — and neither route's JSON response
contains a `truncated` field. -/
theorem C8_counterexample :
    legacyFetchCount (List.replicate 2002 0) = 2002 ∧
      ¬legacyFetchCount (List.replicate 2002 0) ≤ MAX_RESULT_ROWS + 1 ∧
      "truncated" ∉ successResponseKeys ∧
      "truncated" ∉ retryResponseKeys := by
  have h : legacyFetchCount (List.replicate 2002 0) = 2002 := by
    simp only [legacyFetchCount, legacyFetch, List.length_replicate]
  refine ⟨h, ?_, by decide, by decide⟩
  rw [h]
  decide

/-- C8 as amended: the package executor `execute_and_parse_query` fetches at
most `MAX_RESULT_ROWS + 1` (2001) rows via `fetchmany` and returns at most
`MAX_RESULT_ROWS` (2000) records — a two-row stream returns exactly its 2
records, a 2001-row stream returns exactly 2000 records (and fetches all
2001, so truncation is detectable in principle) — while the legacy route
fetches the whole stream via `fetchall` but still returns at most 2000
records; no `truncated` flag is recorded in either route's response. -/
theorem C8_row_limits :
    (∀ rows : List Nat, eapqFetchCount rows ≤ MAX_RESULT_ROWS + 1) ∧
      (∀ rows : List Nat, (execute_and_parse_query rows).length ≤ MAX_RESULT_ROWS) ∧
      (∀ rows : List Nat, (legacyResults rows).length ≤ MAX_RESULT_ROWS) ∧
      execute_and_parse_query (List.replicate 2 7) = List.replicate 2 7 ∧
      (execute_and_parse_query (List.replicate 2001 7)).length = MAX_RESULT_ROWS ∧
      eapqFetchCount (List.replicate 2001 7) = MAX_RESULT_ROWS + 1 ∧
      "truncated" ∉ successResponseKeys := by
  refine ⟨?_, ?_, ?_, by decide, ?_, ?_, by decide⟩
  · intro rows
    simp only [eapqFetchCount, fetchmany, List.length_take, MAX_RESULT_ROWS]
    omega
  · intro rows
    simp only [execute_and_parse_query, fetchmany, List.length_take, MAX_RESULT_ROWS]
    omega
  · intro rows
    simp only [legacyResults, legacyFetch, List.length_take, MAX_RESULT_ROWS]
    omega
  · simp only [execute_and_parse_query, fetchmany, List.length_take,
      List.length_replicate, MAX_RESULT_ROWS]
    omega
  · simp only [eapqFetchCount, fetchmany, List.length_take,
      List.length_replicate, MAX_RESULT_ROWS]
    omega

/-- C9: the correction loop of `/execute_sql` performs at most one retry (the
execution trace never holds more than two statements), and whenever the
retry fails — no fenced SQL block in the model reply, the extracted
replacement fails `validate_sql`, or re-execution errors — the surfaced
error is `SQL Error: {e}` with `e` the **original** execution error of the
first attempt. -/
theorem C9_single_retry_surfaces_original_error :
    ∀ (db : String → Except String (List Nat)) (llmReply sql e : String),
      (execute_sql db llmReply sql).2.length ≤ 2 ∧
      ((validate_sql sql).1 = true →
        db (cleaned_query sql) = Except.error e →
        retryFails db llmReply = true →
        (execute_sql db llmReply sql).1 =
          ⟨false, some ("SQL Error: " ++ e), [], false⟩) := by
  intro db llmReply sql e
  constructor
  · simp only [execute_sql]
    repeat' split
    all_goals simp only [List.length_nil, List.length_cons]
    all_goals omega
  · intro hv he hr
    rcases h : validate_sql sql with ⟨b, m⟩
    cases b
    · rw [h] at hv; simp at hv
    · simp only [execute_sql, h, he]
      rcases hx : extract_sql_block llmReply with _ | corrected
      · simp [hx]
      · simp only [hx]
        simp only [retryFails, hx] at hr
        rcases h2 : validate_sql corrected with ⟨b2, m2⟩
        cases b2
        · simp [h2]
        · simp only [h2] at hr
          rcases h3 : db (cleaned_query corrected) with e2 | rows
          · simp [h2, h3]
          · simp only [h3] at hr
            simp at hr

/-- Witness for C9: a first attempt failing with `no such table: t` and an
LLM reply without a fenced SQL block end with the original error surfaced
and at most two executions. -/
theorem C9_witness :
    ((validate_sql "SELECT 1").1 = true ∧
      (fun _ : String => (Except.error "no such table: t" : Except String (List Nat)))
          (cleaned_query "SELECT 1") = Except.error "no such table: t" ∧
      retryFails (fun _ => Except.error "no such table: t") "no block here" = true) ∧
    (execute_sql (fun _ => Except.error "no such table: t") "no block here" "SELECT 1").2.length ≤ 2 ∧
    (execute_sql (fun _ => Except.error "no such table: t") "no block here" "SELECT 1").1 =
      ⟨false, some ("SQL Error: " ++ "no such table: t"), [], false⟩ :=
  ⟨⟨by decide, rfl, by decide⟩,
   (C9_single_retry_surfaces_original_error
       (fun _ => Except.error "no such table: t") "no block here" "SELECT 1"
       "no such table: t").1,
   (C9_single_retry_surfaces_original_error
       (fun _ => Except.error "no such table: t") "no block here" "SELECT 1"
       "no such table: t").2 (by decide) rfl (by decide)⟩

end YourSqlFriend
